import Mathlib

/-!
Verification development for the client-side data/state layer of the
Al-Quran web application (modules api.js, auth.js, storage.js).

The JavaScript source is shallowly embedded: each method becomes a pure
Lean function, with the localStorage-backed state passed explicitly and
the clock (Date.now) passed as a natural-number argument.  Machine
integers of JavaScript (32-bit wrap in the password hash) are modelled
with Int and explicit reduction modulo 2^32.
-/

namespace QuranApp

/-! ## JavaScript string primitives used by the modules -/

/-- Character class of the JavaScript trim operation: the WhiteSpace and
LineTerminator productions (space, tab, LF, CR, VT, FF, NBSP, BOM,
LS, PS and the Unicode space separators). -/
def isJsWhitespace (c : Char) : Bool :=
  c.toNat == 32 || c.toNat == 9 || c.toNat == 10 || c.toNat == 13 ||
  c.toNat == 11 || c.toNat == 12 || c.toNat == 160 || c.toNat == 0xfeff ||
  c.toNat == 0x2028 || c.toNat == 0x2029 ||
  (0x2000 ≤ c.toNat && c.toNat ≤ 0x200a) || c.toNat == 0x1680 ||
  c.toNat == 0x202f || c.toNat == 0x205f || c.toNat == 0x3000

/-- JavaScript String.prototype.trim: drop leading and trailing
whitespace characters. -/
def jsTrim (s : String) : String :=
  ⟨((s.data.dropWhile isJsWhitespace).reverse.dropWhile isJsWhitespace).reverse⟩

/-- JavaScript String.prototype.toLowerCase, modelled on the ASCII
range (the usernames compared by auth.js). -/
def jsToLower (s : String) : String :=
  ⟨s.data.map Char.toLower⟩

/-! ## auth.js: password hashing

hashPassword folds the 32-bit rolling hash
`hash = ((hash << 5) - hash) + charCode; hash = hash & hash`
over the characters of password + salt and renders the signed 32-bit
result in decimal.  charCodeAt is modelled by the code point of each
character (they agree on the basic multilingual plane). -/

/-- Reduce an integer to the signed 32-bit range, as the JavaScript
bitwise operations do. -/
def toInt32 (n : Int) : Int :=
  (n + 2 ^ 31) % 2 ^ 32 - 2 ^ 31

/-- One step of the rolling hash of auth.js hashPassword. -/
def hashStep (h : Int) (c : Nat) : Int :=
  toInt32 (toInt32 (h * 32) - h + c)

/-- AuthManager.hashPassword: rolling hash over password + fixed salt,
rendered as a decimal string. -/
def hashPassword (password : String) : String :=
  let combined := password ++ "quran_app_salt_2024"
  toString ((combined.data.map Char.toNat).foldl hashStep 0)

/-- AuthManager.verifyPassword: re-hash and compare with the stored
checksum string. -/
def verifyPassword (password hashedPassword : String) : Bool :=
  hashPassword password == hashedPassword

/-! ## auth.js: data model

The three storage keys of AuthManager (quran_users, quran_current_user,
quran_session) become the three fields of AuthState; a missing key is
None. -/

/-- Profile sub-record of a stored account. -/
structure Profile where
  displayName : String
  preferredQari : String
  fontSize : String
  theme : String
  deriving DecidableEq, Repr

/-- A stored account record (element of the quran_users list). -/
structure User where
  id : String
  username : String
  password : String
  createdAt : Nat
  lastLogin : Option Nat
  isActive : Bool
  profile : Profile
  deriving DecidableEq, Repr

/-- The session-user projection stored under quran_current_user. -/
structure SessionUser where
  id : String
  username : String
  displayName : String
  profile : Profile
  loginTime : Nat
  deriving DecidableEq, Repr

/-- The session record stored under quran_session. -/
structure Session where
  userId : String
  createdAt : Nat
  expiresAt : Nat
  isValid : Bool
  deriving DecidableEq, Repr

/-- The authentication-relevant slice of localStorage. -/
structure AuthState where
  users : List User
  currentUser : Option SessionUser
  session : Option Session
  deriving DecidableEq, Repr

/-! ## auth.js: operations -/

/-- AuthManager.logout: remove the current-user and session records. -/
def logout (st : AuthState) : AuthState :=
  { st with currentUser := none, session := none }

/-- AuthManager.isSessionValid: the record must carry isValid and must
not be past its expiry (`Date.now() > session.expiresAt` invalidates). -/
def isSessionValid (now : Nat) (s : Session) : Bool :=
  s.isValid && !(decide (now > s.expiresAt))

/-- AuthManager.getCurrentUser: a missing or invalid session triggers
logout and yields null; otherwise the stored current user is returned. -/
def getCurrentUser (now : Nat) (st : AuthState) : Option SessionUser × AuthState :=
  match st.session with
  | none => (none, logout st)
  | some s =>
    if isSessionValid now s then (st.currentUser, st)
    else (none, logout st)

/-- AuthManager.createUserSession: build the session-user projection
(displayName falls back to the username when the profile field is the
empty string, mirroring `user.profile?.displayName || user.username`),
store it with a 24-hour session, and return it. -/
def createUserSession (now : Nat) (user : User) (st : AuthState) :
    SessionUser × AuthState :=
  let sessionUser : SessionUser :=
    { id := user.id
      username := user.username
      displayName :=
        if user.profile.displayName = "" then user.username
        else user.profile.displayName
      profile := user.profile
      loginTime := now }
  let session : Session :=
    { userId := user.id
      createdAt := now
      expiresAt := now + 24 * 60 * 60 * 1000
      isValid := true }
  (sessionUser, { st with currentUser := some sessionUser, session := some session })

/-- AuthManager.register.  generateUserId draws on the clock and a
random source, so the fresh id is a parameter.  Validation, the
case-insensitive conflict check, account creation (username trimmed on
store) and the automatic login follow auth.js line by line. -/
def register (now : Nat) (freshId username password : String) (st : AuthState) :
    Except String SessionUser × AuthState :=
  if username = "" ∨ password = "" then
    (.error "Username dan password harus diisi", st)
  else if username.length < 3 then
    (.error "Username minimal 3 karakter", st)
  else if password.length < 6 then
    (.error "Password minimal 6 karakter", st)
  else
    match st.users.find? (fun u => jsToLower u.username == jsToLower username) with
    | some _ => (.error "Username sudah digunakan", st)
    | none =>
      let newUser : User :=
        { id := freshId
          username := jsTrim username
          password := hashPassword password
          createdAt := now
          lastLogin := none
          isActive := true
          profile :=
            { displayName := jsTrim username
              preferredQari := ""
              fontSize := "medium"
              theme := "light" } }
      let st1 : AuthState := { st with users := st.users ++ [newUser] }
      let (sessionUser, st2) := createUserSession now newUser st1
      (.ok sessionUser, st2)

/-- AuthManager.login: find the account case-insensitively, check the
active flag and the password checksum, stamp lastLogin and create a
session. -/
def login (now : Nat) (username password : String) (st : AuthState) :
    Except String SessionUser × AuthState :=
  if username = "" ∨ password = "" then
    (.error "Username dan password harus diisi", st)
  else
    match st.users.find? (fun u => jsToLower u.username == jsToLower username) with
    | none => (.error "Username tidak ditemukan", st)
    | some user =>
      if !user.isActive then (.error "Akun tidak aktif", st)
      else if !verifyPassword password user.password then
        (.error "Password salah", st)
      else
        let user1 := { user with lastLogin := some now }
        let idx := st.users.findIdx (fun u => u.id == user.id)
        let st1 : AuthState := { st with users := st.users.set idx user1 }
        let (sessionUser, st2) := createUserSession now user1 st1
        (.ok sessionUser, st2)

/-- AuthManager.changePassword: requires a live session (getCurrentUser
performs the implicit logout on an invalid one), validates the inputs,
re-verifies the old checksum and overwrites only the password field of
the account record. -/
def changePassword (now : Nat) (currentPassword newPassword : String)
    (st : AuthState) : Except String Unit × AuthState :=
  let (cu?, st1) := getCurrentUser now st
  match cu? with
  | none => (.error "User tidak login", st1)
  | some cu =>
    if currentPassword = "" ∨ newPassword = "" then
      (.error "Password lama dan baru harus diisi", st1)
    else if newPassword.length < 6 then
      (.error "Password baru minimal 6 karakter", st1)
    else
      match st1.users.find? (fun u => u.id == cu.id) with
      | none => (.error "User tidak ditemukan", st1)
      | some user =>
        if !verifyPassword currentPassword user.password then
          (.error "Password lama salah", st1)
        else
          let user1 := { user with password := hashPassword newPassword }
          let idx := st1.users.findIdx (fun u => u.id == cu.id)
          (.ok (), { st1 with users := st1.users.set idx user1 })

/-! ## storage.js: data model

The storage keys quran_bookmarks, quran_history, quran_theme and
quran_settings become the fields of StoreState; a missing key is None.
Snapshot fields carry the shapes written by addBookmark and addHistory. -/

/-- A chapter-level bookmark as written by addBookmark with kind surat. -/
structure SuratBookmark where
  nomor : Nat
  nama : String
  namaLatin : String
  jumlahAyat : Nat
  tempatTurun : String
  timestamp : Nat
  deriving DecidableEq, Repr

/-- A verse-level bookmark as written by addBookmark with kind ayat. -/
structure AyatBookmark where
  suratId : Nat
  suratNama : String
  nomorAyat : Nat
  teksArab : String
  teksIndonesia : String
  timestamp : Nat
  deriving DecidableEq, Repr

/-- The two bookmark lists stored under quran_bookmarks. -/
structure Bookmarks where
  surat : List SuratBookmark
  ayat : List AyatBookmark
  deriving DecidableEq, Repr

/-- A reading-history entry as written by addHistory. -/
structure HistoryEntry where
  nomor : Nat
  nama : String
  namaLatin : String
  timestamp : Nat
  deriving DecidableEq, Repr

/-- The chapter-summary argument of addHistory (the fields it reads). -/
structure SuratData where
  nomor : Nat
  nama : String
  namaLatin : String
  deriving DecidableEq, Repr

/-- Stored settings record: a JavaScript object whose six expected keys
may each be present or absent, so every field is an Option. -/
structure SettingsObj where
  autoPlayAudio : Option Bool
  showTransliteration : Option Bool
  showTranslation : Option Bool
  fontSize : Option String
  qariPreference : Option String
  notificationsEnabled : Option Bool
  deriving DecidableEq, Repr

/-- The default settings record written by initializeStorage and used
as the getter fallback: all six keys present. -/
def defaultSettings : SettingsObj :=
  { autoPlayAudio := some false
    showTransliteration := some true
    showTranslation := some true
    fontSize := some "medium"
    qariPreference := some ""
    notificationsEnabled := some true }

/-- All six keys of a settings record are present. -/
def settingsFull (s : SettingsObj) : Bool :=
  s.autoPlayAudio.isSome && s.showTransliteration.isSome &&
  s.showTranslation.isSome && s.fontSize.isSome &&
  s.qariPreference.isSome && s.notificationsEnabled.isSome

/-- The StorageManager slice of localStorage. -/
structure StoreState where
  bookmarks : Option Bookmarks
  history : Option (List HistoryEntry)
  theme : Option String
  settings : Option SettingsObj
  deriving DecidableEq, Repr

/-- The state right after StorageManager.initializeStorage. -/
def initialStoreState : StoreState :=
  { bookmarks := some { surat := [], ayat := [] }
    history := some []
    theme := some "light"
    settings := some defaultSettings }

/-! ## storage.js: operations -/

/-- StorageManager.getSettings: the stored record when one exists
(JavaScript `getItem(...) || defaults`, and any object is truthy),
else the default record. -/
def getSettings (stored : Option SettingsObj) : SettingsObj :=
  match stored with
  | some s => s
  | none => defaultSettings

/-- StorageManager.getBookmarks fallback. -/
def getBookmarks (stored : Option Bookmarks) : Bookmarks :=
  match stored with
  | some b => b
  | none => { surat := [], ayat := [] }

/-- StorageManager.getHistory fallback. -/
def getHistory (stored : Option (List HistoryEntry)) : List HistoryEntry :=
  match stored with
  | some h => h
  | none => []

/-- The duck-typed payload of addBookmark: the union of the fields the
surat branch and the ayat branch read. -/
structure BmData where
  nomor : Nat
  nama : String
  namaLatin : String
  jumlahAyat : Nat
  tempatTurun : String
  suratId : Nat
  suratNama : String
  nomorAyat : Nat
  teksArab : String
  teksIndonesia : String
  deriving DecidableEq, Repr

/-- StorageManager.addBookmark: on kind surat, cons a chapter snapshot
unless one with the same nomor exists; on kind ayat, cons a verse
snapshot unless one with the same (suratId, nomorAyat) exists; any
other kind leaves the lists untouched. -/
def addBookmark (now : Nat) (kind : String) (data : BmData) (b : Bookmarks) :
    Bookmarks :=
  if kind = "surat" then
    if b.surat.any (fun s => s.nomor == data.nomor) then b
    else
      { b with surat :=
          { nomor := data.nomor, nama := data.nama, namaLatin := data.namaLatin
            jumlahAyat := data.jumlahAyat, tempatTurun := data.tempatTurun
            timestamp := now } :: b.surat }
  else if kind = "ayat" then
    if b.ayat.any (fun a => a.suratId == data.suratId && a.nomorAyat == data.nomorAyat) then b
    else
      { b with ayat :=
          { suratId := data.suratId, suratNama := data.suratNama
            nomorAyat := data.nomorAyat, teksArab := data.teksArab
            teksIndonesia := data.teksIndonesia, timestamp := now } :: b.ayat }
  else b

/-- Number of chapter-level bookmarks carrying a given chapter ordinal. -/
def countSurat (nomor : Nat) (b : Bookmarks) : Nat :=
  (b.surat.filter (fun s => s.nomor == nomor)).length

/-- Number of verse-level bookmarks carrying a given (chapter, verse) pair. -/
def countAyat (suratId nomorAyat : Nat) (b : Bookmarks) : Nat :=
  (b.ayat.filter (fun a => a.suratId == suratId && a.nomorAyat == nomorAyat)).length

/-- StorageManager.addHistory: drop any entry of the same chapter,
cons a fresh entry, and cut back to 50 entries. -/
def addHistory (now : Nat) (s : SuratData) (history : List HistoryEntry) :
    List HistoryEntry :=
  let filtered := history.filter (fun h => !(h.nomor == s.nomor))
  let updated :=
    { nomor := s.nomor, nama := s.nama, namaLatin := s.namaLatin
      timestamp := now : HistoryEntry } :: filtered
  if updated.length > 50 then updated.take 50 else updated

/-- A sequence of addHistory calls, each with its own clock reading. -/
def runHistory (calls : List (Nat × SuratData)) (history : List HistoryEntry) :
    List HistoryEntry :=
  match calls with
  | [] => history
  | (t, s) :: rest => runHistory rest (addHistory t s history)

/-- The invariant the incremental history operations maintain: no
chapter ordinal occurs twice, at most 50 entries, timestamps
non-increasing from the front (most recent first). -/
def historyWF (h : List HistoryEntry) : Prop :=
  (h.map (fun e => e.nomor)).Nodup ∧ h.length ≤ 50 ∧
    h.Pairwise (fun a b => b.timestamp ≤ a.timestamp)

instance (h : List HistoryEntry) : Decidable (historyWF h) := by
  unfold historyWF; infer_instance

/-- Clock readings of a call sequence are at least a lower bound and
non-decreasing along the sequence. -/
def timesMono (lb : Nat) (calls : List (Nat × SuratData)) : Prop :=
  match calls with
  | [] => True
  | (t, _) :: rest => lb ≤ t ∧ timesMono t rest

instance (lb : Nat) (calls : List (Nat × SuratData)) :
    Decidable (timesMono lb calls) := by
  induction calls generalizing lb with
  | nil => exact .isTrue trivial
  | cons c rest ih =>
    have := ih c.1
    unfold timesMono
    infer_instance

/-- The import payload, after JSON.parse: each of the five fields the
code inspects may be present or absent. -/
structure ImportPayload where
  version : Option String
  bookmarks : Option Bookmarks
  history : Option (List HistoryEntry)
  settings : Option SettingsObj
  theme : Option String
  deriving DecidableEq, Repr

/-- JavaScript truthiness of an optional string: present and non-empty. -/
def truthyStr (v : Option String) : Bool :=
  match v with
  | none => false
  | some s => !(s == "")

/-- StorageManager.importData: `!data.version || !data.bookmarks`
throws (caught, returning false) before any write; otherwise each
present category is written verbatim (objects and arrays are always
truthy; the theme string is skipped when empty). -/
def importData (p : ImportPayload) (st : StoreState) : Bool × StoreState :=
  if !truthyStr p.version || p.bookmarks.isNone then (false, st)
  else
    let st1 := match p.bookmarks with
      | some b => { st with bookmarks := some b }
      | none => st
    let st2 := match p.history with
      | some h => { st1 with history := some h }
      | none => st1
    let st3 := match p.settings with
      | some s => { st2 with settings := some s }
      | none => st2
    let st4 := match p.theme with
      | some t => if !(t == "") then { st3 with theme := some t } else st3
      | none => st3
    (true, st4)

/-! ## api.js: audio URL resolution and the response cache -/

/-- A normalized verse as produced by getSuratDetail: ordinal plus the
per-reciter audio object (a string-keyed map that may be absent); the
text fields are not read by the audio resolution and are omitted. -/
structure AyatObj where
  nomorAyat : Nat
  audio : Option (List (String × String))
  deriving DecidableEq, Repr

/-- The slice of a normalized chapter detail read by getAyatAudioUrl. -/
structure SuratDetail where
  ayat : List AyatObj
  deriving DecidableEq, Repr

/-- QuranAPI.qariMapping: the five recognized reciter keys. -/
def qariMapping : List (String × String) :=
  [("abdullah_al_juhany", "01"),
   ("abdul_muhsin_al_qasim", "02"),
   ("abdurrahman_as_sudais", "03"),
   ("ibrahim_al_dossari", "04"),
   ("misyari_rasyid_al_afasy", "05")]

/-- Property read `obj[key]` on a JavaScript object modelled as an
association list; an undefined key indexes as the string "undefined". -/
def jsObjGet (m : List (String × String)) (key : Option String) : Option String :=
  (m.find? (fun p => p.1 == key.getD "undefined")).map (fun p => p.2)

/-- qariMapping[qariKey] as an optional reciter id. -/
def qariIdOf (qariKey : String) : Option String :=
  (qariMapping.find? (fun p => p.1 == qariKey)).map (fun p => p.2)

/-- QuranAPI.getAyatAudioUrl, applied to an already fetched chapter
detail: locate the verse by loose ordinal equality, throw (wrapped by
the catch block) when the verse or its audio object is absent, and
otherwise index the audio object by qariMapping[qariKey] with no
validation of the reciter key. -/
def getAyatAudioUrl (detail : SuratDetail) (ayatNumber : Nat) (qariKey : String) :
    Except String (Option String) :=
  match detail.ayat.find? (fun a => a.nomorAyat == ayatNumber) with
  | none => .error "Gagal mendapatkan URL audio: Audio tidak tersedia untuk ayat ini"
  | some ayat =>
    match ayat.audio with
    | none => .error "Gagal mendapatkan URL audio: Audio tidak tersedia untuk ayat ini"
    | some audioMap => .ok (jsObjGet audioMap (qariIdOf qariKey))

/-- Map.get on the cache (entries keep insertion order, as a JavaScript
Map does): key, stored data, stored timestamp. -/
def mapGet {α : Type} (key : String) (c : List (String × α × Nat)) :
    Option (α × Nat) :=
  (c.find? (fun p => p.1 == key)).map (fun p => p.2)

/-- Map.delete on the cache. -/
def mapDelete {α : Type} (key : String) (c : List (String × α × Nat)) :
    List (String × α × Nat) :=
  c.filter (fun p => !(p.1 == key))

/-- Map.set on the cache: overwrite in place when the key exists, else
append. -/
def mapSet {α : Type} (key : String) (v : α × Nat)
    (c : List (String × α × Nat)) : List (String × α × Nat) :=
  if c.any (fun p => p.1 == key) then
    c.map (fun p => if p.1 == key then (key, v) else p)
  else c ++ [(key, v)]

/-- QuranAPI.getCachedData: a hit younger than one hour returns the
stored data; a stale hit is deleted; on miss or staleness the produced
value (the awaited fetchFunction result) is stored under the current
timestamp and returned. -/
def getCachedData {α : Type} (now : Nat) (key : String) (produced : α)
    (c : List (String × α × Nat)) : α × List (String × α × Nat) :=
  match mapGet key c with
  | some (d, ts) =>
    if now - ts < 3600000 then (d, c)
    else
      let c1 := mapDelete key c
      (produced, mapSet key (produced, now) c1)
  | none => (produced, mapSet key (produced, now) c)

/-! ## Helper definitions for concrete test states -/

/-- Success test on an Except result. -/
def isOkB {ε α : Type} (e : Except ε α) : Bool :=
  match e with
  | .ok _ => true
  | .error _ => false

instance {ε α : Type} [DecidableEq ε] [DecidableEq α] :
    DecidableEq (Except ε α) := fun a b =>
  match a, b with
  | .ok x, .ok y =>
    if h : x = y then .isTrue (by rw [h]) else .isFalse (by simp [h])
  | .error x, .error y =>
    if h : x = y then .isTrue (by rw [h]) else .isFalse (by simp [h])
  | .ok _, .error _ => .isFalse (by simp)
  | .error _, .ok _ => .isFalse (by simp)

/-- The auth state with no accounts and no session. -/
def emptyAuthState : AuthState :=
  { users := [], currentUser := none, session := none }

/-- An imported history of 51 distinct entries, one more than addHistory
ever keeps. -/
def oversizedHistory : List HistoryEntry :=
  (List.range 51).map (fun i => { nomor := i + 1, nama := "", namaLatin := "", timestamp := 0 })

/-- The account record register creates for the given inputs. -/
def regUser (now : Nat) (freshId username password : String) : User :=
  { id := freshId
    username := jsTrim username
    password := hashPassword password
    createdAt := now
    lastLogin := none
    isActive := true
    profile :=
      { displayName := jsTrim username
        preferredQari := ""
        fontSize := "medium"
        theme := "light" } }

/-! ## Claims -/

/-- Claim C1: an import payload missing the version field or the
bookmarks field makes importData fail and leave the whole store state
(all four persisted categories) exactly as it was. -/
theorem importData_missing_field_noop (p : ImportPayload) (st : StoreState)
    (h : p.version = none ∨ p.bookmarks = none) :
    importData p st = (false, st) := by
  rcases h with h | h <;> simp [importData, truthyStr, h]

/-- Witness for C1 at a concrete payload missing the version field. -/
theorem importData_missing_field_noop_witness :
    importData
      { version := none, bookmarks := some { surat := [], ayat := [] },
        history := none, settings := none, theme := none }
      initialStoreState = (false, initialStoreState) :=
  importData_missing_field_noop _ _ (Or.inl rfl)

/-- Claim C3: when the stored session has expired, getCurrentUser
returns null and clears both the session and the current-user record
(the implicit logout). -/
theorem getCurrentUser_expired_clears (now : Nat) (st : AuthState) (s : Session)
    (hs : st.session = some s) (hexp : s.expiresAt < now) :
    getCurrentUser now st = (none, logout st) := by
  simp [getCurrentUser, hs, isSessionValid, hexp]

/-- Witness for C3 at a concrete state with an expired session. -/
theorem getCurrentUser_expired_clears_witness :
    getCurrentUser 11
      { users := [], currentUser := none,
        session := some { userId := "id1", createdAt := 0, expiresAt := 10, isValid := true } } =
      (none, logout
        { users := [], currentUser := none,
          session := some { userId := "id1", createdAt := 0, expiresAt := 10, isValid := true } }) :=
  getCurrentUser_expired_clears 11 _ _ rfl (by decide)

/-- Claim C6 counterexample: a stored settings record missing five of
the six keys is returned by the getter as is, not filled from the
defaults, so the result is not fully populated. -/
theorem getSettings_partial_not_filled :
    settingsFull (getSettings (some
      { autoPlayAudio := none, showTransliteration := none, showTranslation := none,
        fontSize := some "large", qariPreference := none, notificationsEnabled := none })) =
      false := rfl

/-- Claim C6 (amended): the getter substitutes the fully populated
default record only when no settings record is stored at all; a stored
record is returned verbatim, with no per-key filling. -/
theorem getSettings_contract :
    getSettings none = defaultSettings ∧ settingsFull defaultSettings = true ∧
      ∀ s, getSettings (some s) = s :=
  ⟨rfl, rfl, fun _ => rfl⟩

/-- Claim C7 counterexample: with a verse and its audio mapping both
present, an unrecognized reciter key does not raise any error; the call
returns undefined (no URL) instead of a ValidationError. -/
theorem getAyatAudioUrl_unrecognized_qari_no_error :
    qariIdOf "invalid_qari" = none ∧
    getAyatAudioUrl
      { ayat := [{ nomorAyat := 1,
                   audio := some [("01", "u1"), ("02", "u2"), ("03", "u3"),
                                  ("04", "u4"), ("05", "u5")] }] }
      1 "invalid_qari" = .ok none := ⟨rfl, rfl⟩

/-- Claim C7 (amended): resolving a verse audio URL fails with the
not-found error when the verse or its audio mapping is absent from the
fetched chapter detail; otherwise it returns the entry stored under
qariMapping[qariKey] in the audio mapping, which is no URL at all
(undefined, not an error) when the reciter key is unrecognized. -/
theorem getAyatAudioUrl_cases (detail : SuratDetail) (n : Nat) (qariKey : String) :
    (detail.ayat.find? (fun a => a.nomorAyat == n) = none →
      getAyatAudioUrl detail n qariKey =
        .error "Gagal mendapatkan URL audio: Audio tidak tersedia untuk ayat ini") ∧
    (∀ v, detail.ayat.find? (fun a => a.nomorAyat == n) = some v → v.audio = none →
      getAyatAudioUrl detail n qariKey =
        .error "Gagal mendapatkan URL audio: Audio tidak tersedia untuk ayat ini") ∧
    (∀ v m, detail.ayat.find? (fun a => a.nomorAyat == n) = some v → v.audio = some m →
      getAyatAudioUrl detail n qariKey = .ok (jsObjGet m (qariIdOf qariKey))) := by
  refine ⟨fun h => ?_, fun v h1 h2 => ?_, fun v m h1 h2 => ?_⟩
  · simp [getAyatAudioUrl, h]
  · simp [getAyatAudioUrl, h1, h2]
  · simp [getAyatAudioUrl, h1, h2]

/-- Witness for C7 at a concrete detail: absent verse yields the
not-found error, and a present verse with audio yields its URL. -/
theorem getAyatAudioUrl_cases_witness :
    getAyatAudioUrl { ayat := [] } 1 "abdullah_al_juhany" =
      .error "Gagal mendapatkan URL audio: Audio tidak tersedia untuk ayat ini" ∧
    getAyatAudioUrl { ayat := [{ nomorAyat := 1, audio := some [("01", "u1")] }] }
      1 "abdullah_al_juhany" = .ok (some "u1") := by
  constructor
  · exact (getAyatAudioUrl_cases { ayat := [] } 1 "abdullah_al_juhany").1 rfl
  · have h := (getAyatAudioUrl_cases
      { ayat := [{ nomorAyat := 1, audio := some [("01", "u1")] }] }
      1 "abdullah_al_juhany").2.2 { nomorAyat := 1, audio := some [("01", "u1")] }
      [("01", "u1")] rfl rfl
    simpa using h

/-- Claim C10: importData applies an oversized history verbatim, so the
store can hold more than 50 history entries after a successful import,
even though a single addHistory call always leaves at most 50 entries. -/
theorem importData_bypasses_history_cap :
    (importData
        { version := some "1.0", bookmarks := some { surat := [], ayat := [] },
          history := some oversizedHistory, settings := none, theme := none }
        initialStoreState =
      (true, { initialStoreState with
                bookmarks := some { surat := [], ayat := [] },
                history := some oversizedHistory }) ∧
      50 < oversizedHistory.length) ∧
    ∀ (now : Nat) (s : SuratData) (h : List HistoryEntry),
      (addHistory now s h).length ≤ 50 := by
  refine ⟨⟨rfl, by decide⟩, fun now s h => ?_⟩
  simp only [addHistory]
  split
  · simp
  · next hng => omega

/-- Setting a key the cache does not hold appends the new entry. -/
theorem mapSet_of_absent {α : Type} (key : String) (v : α × Nat)
    (c : List (String × α × Nat)) (h : mapGet key c = none) :
    mapSet key v c = c ++ [(key, v)] := by
  have h2 : c.find? (fun p => p.1 == key) = none := by
    simpa [mapGet] using h
  rw [List.find?_eq_none] at h2
  simp only [mapSet]
  rw [if_neg]
  simp only [List.any_eq_true, not_exists, not_and]
  intro p hp
  simpa using h2 p hp

/-- Deleting a key leaves a cache that does not hold it. -/
theorem mapGet_delete {α : Type} (key : String) (c : List (String × α × Nat)) :
    mapGet key (mapDelete key c) = none := by
  simp only [mapGet, mapDelete, Option.map_eq_none', List.find?_eq_none]
  intro p hp
  have := (List.mem_filter.mp hp).2
  simpa using this

/-- Claim C8: getCachedData returns the stored value and leaves the
cache alone on a hit younger than one hour (for any produced value, so
the producer is never consulted); on a miss, or on an entry one hour
old or older, it returns the produced value and stores it under the
current timestamp (the stale entry deleted first). -/
theorem getCachedData_contract {α : Type} (now : Nat) (key : String)
    (produced : α) (c : List (String × α × Nat)) :
    (∀ d ts, mapGet key c = some (d, ts) → now - ts < 3600000 →
      getCachedData now key produced c = (d, c)) ∧
    (mapGet key c = none →
      getCachedData now key produced c = (produced, c ++ [(key, produced, now)])) ∧
    (∀ d ts, mapGet key c = some (d, ts) → 3600000 ≤ now - ts →
      getCachedData now key produced c =
        (produced, mapDelete key c ++ [(key, produced, now)])) := by
  refine ⟨fun d ts h1 h2 => ?_, fun h => ?_, fun d ts h1 h2 => ?_⟩
  · simp [getCachedData, h1, h2]
  · simp [getCachedData, h, mapSet_of_absent key (produced, now) c h]
  · have hns : ¬ now - ts < 3600000 := by omega
    simp only [getCachedData, h1, hns, if_false]
    rw [mapSet_of_absent key (produced, now) (mapDelete key c) (mapGet_delete key c)]

/-- Witness for C8: a fresh hit returns the cached value, a miss and a
stale hit both store and return the produced value. -/
theorem getCachedData_contract_witness :
    getCachedData 200 "k" (0 : Nat) [("k", 7, 100)] = (7, [("k", 7, 100)]) ∧
    getCachedData 5 "k" (42 : Nat) [] = (42, [("k", 42, 5)]) ∧
    getCachedData 4000000 "k" (9 : Nat) [("k", 7, 100)] = (9, [("k", 9, 4000000)]) := by
  refine ⟨(getCachedData_contract 200 "k" 0 [("k", 7, 100)]).1 7 100 rfl (by decide), ?_, ?_⟩
  · have h := (getCachedData_contract 5 "k" (42 : Nat) []).2.1 rfl
    simpa using h
  · have h := (getCachedData_contract 4000000 "k" (9 : Nat) [("k", 7, 100)]).2.2
      7 100 rfl (by decide)
    simpa [mapDelete] using h

/-- After addBookmark with kind surat, a chapter bookmark with the
chapter ordinal of the payload is present. -/
theorem addBookmark_surat_present (now : Nat) (d : BmData) (b : Bookmarks) :
    (addBookmark now "surat" d b).surat.any (fun s => s.nomor == d.nomor) = true := by
  unfold addBookmark
  rw [if_pos rfl]
  split
  · assumption
  · simp

/-- After addBookmark with kind ayat, a verse bookmark with the
(chapter, verse) pair of the payload is present. -/
theorem addBookmark_ayat_present (now : Nat) (d : BmData) (b : Bookmarks) :
    (addBookmark now "ayat" d b).ayat.any
      (fun a => a.suratId == d.suratId && a.nomorAyat == d.nomorAyat) = true := by
  unfold addBookmark
  rw [if_neg (by decide), if_pos rfl]
  split
  · assumption
  · simp

/-- Adding the same chapter bookmark twice equals adding it once. -/
theorem addBookmark_surat_twice (now1 now2 : Nat) (d : BmData) (b : Bookmarks) :
    addBookmark now2 "surat" d (addBookmark now1 "surat" d b) =
      addBookmark now1 "surat" d b := by
  conv_lhs => rw [addBookmark]
  rw [if_pos rfl, if_pos (addBookmark_surat_present now1 d b)]

/-- Adding the same verse bookmark twice equals adding it once. -/
theorem addBookmark_ayat_twice (now1 now2 : Nat) (d : BmData) (b : Bookmarks) :
    addBookmark now2 "ayat" d (addBookmark now1 "ayat" d b) =
      addBookmark now1 "ayat" d b := by
  conv_lhs => rw [addBookmark]
  rw [if_neg (by decide), if_pos rfl, if_pos (addBookmark_ayat_present now1 d b)]

/-- One addBookmark of kind surat on a state respecting the uniqueness
key leaves exactly one chapter bookmark with that ordinal. -/
theorem countSurat_addBookmark (now : Nat) (d : BmData) (b : Bookmarks)
    (hs : countSurat d.nomor b ≤ 1) :
    countSurat d.nomor (addBookmark now "surat" d b) = 1 := by
  by_cases hany : b.surat.any (fun s => s.nomor == d.nomor) = true
  · unfold addBookmark
    rw [if_pos rfl, if_pos hany]
    obtain ⟨s, hmem, hp⟩ := List.any_eq_true.mp hany
    have hin : s ∈ b.surat.filter (fun s => s.nomor == d.nomor) :=
      List.mem_filter.mpr ⟨hmem, hp⟩
    have hpos : 0 < countSurat d.nomor b := by
      unfold countSurat
      exact List.length_pos.mpr (fun hnil => by simp [hnil] at hin)
    unfold countSurat at hs hpos ⊢
    omega
  · have hall := List.any_eq_false.mp (Bool.eq_false_iff.mpr hany)
    unfold addBookmark
    rw [if_pos rfl, if_neg hany]
    unfold countSurat
    simp only [List.filter_cons]
    rw [if_pos (by simp), List.filter_eq_nil_iff.mpr hall]
    rfl

/-- One addBookmark of kind ayat on a state respecting the uniqueness
key leaves exactly one verse bookmark with that (chapter, verse) pair. -/
theorem countAyat_addBookmark (now : Nat) (d : BmData) (b : Bookmarks)
    (ha : countAyat d.suratId d.nomorAyat b ≤ 1) :
    countAyat d.suratId d.nomorAyat (addBookmark now "ayat" d b) = 1 := by
  by_cases hany : b.ayat.any
      (fun a => a.suratId == d.suratId && a.nomorAyat == d.nomorAyat) = true
  · unfold addBookmark
    rw [if_neg (by decide), if_pos rfl, if_pos hany]
    obtain ⟨a, hmem, hp⟩ := List.any_eq_true.mp hany
    have hin : a ∈ b.ayat.filter
        (fun a => a.suratId == d.suratId && a.nomorAyat == d.nomorAyat) :=
      List.mem_filter.mpr ⟨hmem, hp⟩
    have hpos : 0 < countAyat d.suratId d.nomorAyat b := by
      unfold countAyat
      exact List.length_pos.mpr (fun hnil => by simp [hnil] at hin)
    unfold countAyat at ha hpos ⊢
    omega
  · have hall := List.any_eq_false.mp (Bool.eq_false_iff.mpr hany)
    unfold addBookmark
    rw [if_neg (by decide), if_pos rfl, if_neg hany]
    unfold countAyat
    simp only [List.filter_cons]
    rw [if_pos (by simp), List.filter_eq_nil_iff.mpr hall]
    rfl

/-- Claim C5: addBookmark is idempotent (for any kind string, adding
the same payload twice equals adding it once), and starting from a
state with at most one bookmark per uniqueness key, two chapter-level
adds leave exactly one bookmark with that chapter ordinal and two
verse-level adds leave exactly one bookmark with that
(chapter, verse) pair. -/
theorem addBookmark_idempotent (now1 now2 : Nat) (kind : String) (d : BmData)
    (b : Bookmarks)
    (hs : countSurat d.nomor b ≤ 1)
    (ha : countAyat d.suratId d.nomorAyat b ≤ 1) :
    addBookmark now2 kind d (addBookmark now1 kind d b) = addBookmark now1 kind d b ∧
    countSurat d.nomor (addBookmark now2 "surat" d (addBookmark now1 "surat" d b)) = 1 ∧
    countAyat d.suratId d.nomorAyat
      (addBookmark now2 "ayat" d (addBookmark now1 "ayat" d b)) = 1 := by
  refine ⟨?_, ?_, ?_⟩
  · by_cases h1 : kind = "surat"
    · subst h1; exact addBookmark_surat_twice now1 now2 d b
    · by_cases h2 : kind = "ayat"
      · subst h2; exact addBookmark_ayat_twice now1 now2 d b
      · simp [addBookmark, h1, h2]
  · rw [addBookmark_surat_twice now1 now2 d b]
    exact countSurat_addBookmark now1 d b hs
  · rw [addBookmark_ayat_twice now1 now2 d b]
    exact countAyat_addBookmark now1 d b ha

/-- Witness for C5 at a concrete payload over the empty bookmark store. -/
theorem addBookmark_idempotent_witness :
    (addBookmark 1 "surat"
        { nomor := 1, nama := "n", namaLatin := "l", jumlahAyat := 7,
          tempatTurun := "Mekah", suratId := 1, suratNama := "n", nomorAyat := 2,
          teksArab := "t", teksIndonesia := "i" }
        (addBookmark 0 "surat"
          { nomor := 1, nama := "n", namaLatin := "l", jumlahAyat := 7,
            tempatTurun := "Mekah", suratId := 1, suratNama := "n", nomorAyat := 2,
            teksArab := "t", teksIndonesia := "i" }
          { surat := [], ayat := [] }) =
      addBookmark 0 "surat"
        { nomor := 1, nama := "n", namaLatin := "l", jumlahAyat := 7,
          tempatTurun := "Mekah", suratId := 1, suratNama := "n", nomorAyat := 2,
          teksArab := "t", teksIndonesia := "i" }
        { surat := [], ayat := [] }) ∧
    countSurat 1
      (addBookmark 1 "surat"
        { nomor := 1, nama := "n", namaLatin := "l", jumlahAyat := 7,
          tempatTurun := "Mekah", suratId := 1, suratNama := "n", nomorAyat := 2,
          teksArab := "t", teksIndonesia := "i" }
        (addBookmark 0 "surat"
          { nomor := 1, nama := "n", namaLatin := "l", jumlahAyat := 7,
            tempatTurun := "Mekah", suratId := 1, suratNama := "n", nomorAyat := 2,
            teksArab := "t", teksIndonesia := "i" }
          { surat := [], ayat := [] })) = 1 ∧
    countAyat 1 2
      (addBookmark 1 "ayat"
        { nomor := 1, nama := "n", namaLatin := "l", jumlahAyat := 7,
          tempatTurun := "Mekah", suratId := 1, suratNama := "n", nomorAyat := 2,
          teksArab := "t", teksIndonesia := "i" }
        (addBookmark 0 "ayat"
          { nomor := 1, nama := "n", namaLatin := "l", jumlahAyat := 7,
            tempatTurun := "Mekah", suratId := 1, suratNama := "n", nomorAyat := 2,
            teksArab := "t", teksIndonesia := "i" }
          { surat := [], ayat := [] })) = 1 :=
  addBookmark_idempotent 0 1 "surat"
    { nomor := 1, nama := "n", namaLatin := "l", jumlahAyat := 7,
      tempatTurun := "Mekah", suratId := 1, suratNama := "n", nomorAyat := 2,
      teksArab := "t", teksIndonesia := "i" }
    { surat := [], ayat := [] } (by decide) (by decide)

/-- One addHistory call preserves the history invariant and keeps all
timestamps bounded by the call time, provided the start already
satisfies the invariant with timestamps at most the call time. -/
theorem addHistory_step_wf (now : Nat) (s : SuratData) (h : List HistoryEntry)
    (hwf : historyWF h) (hb : ∀ e ∈ h, e.timestamp ≤ now) :
    historyWF (addHistory now s h) ∧
      ∀ e ∈ addHistory now s h, e.timestamp ≤ now := by
  obtain ⟨hnd, hlen, hpw⟩ := hwf
  have hsub : (h.filter (fun e => !(e.nomor == s.nomor))).Sublist h :=
    List.filter_sublist h
  have hnd2 : ((h.filter (fun e => !(e.nomor == s.nomor))).map
      (fun e => e.nomor)).Nodup :=
    List.Nodup.sublist (hsub.map _) hnd
  have hnotin : s.nomor ∉ (h.filter (fun e => !(e.nomor == s.nomor))).map
      (fun e => e.nomor) := by
    intro hmem
    obtain ⟨e, hemem, heq⟩ := List.mem_map.mp hmem
    have := (List.mem_filter.mp hemem).2
    simp [heq] at this
  have hu_nd : (((⟨s.nomor, s.nama, s.namaLatin, now⟩ : HistoryEntry) ::
        h.filter (fun e => !(e.nomor == s.nomor))).map (fun e => e.nomor)).Nodup := by
    rw [List.map_cons, List.nodup_cons]
    exact ⟨hnotin, hnd2⟩
  have hu_pw : ((⟨s.nomor, s.nama, s.namaLatin, now⟩ : HistoryEntry) ::
        h.filter (fun e => !(e.nomor == s.nomor))).Pairwise
        (fun a b => b.timestamp ≤ a.timestamp) := by
    refine List.Pairwise.cons (fun e he => ?_) (List.Pairwise.sublist hsub hpw)
    exact hb e (hsub.subset he)
  have hu_bd : ∀ e ∈ (⟨s.nomor, s.nama, s.namaLatin, now⟩ : HistoryEntry) ::
        h.filter (fun e => !(e.nomor == s.nomor)), e.timestamp ≤ now := by
    intro e he
    rcases List.mem_cons.mp he with he | he
    · subst he; exact le_refl now
    · exact hb e (hsub.subset he)
  simp only [addHistory]
  split
  · next hgt =>
    refine ⟨⟨?_, ?_, ?_⟩, ?_⟩
    · rw [List.map_take]
      exact List.Nodup.sublist (List.take_sublist 50 _) hu_nd
    · simp [List.length_take]
    · exact List.Pairwise.sublist (List.take_sublist 50 _) hu_pw
    · intro e he
      exact hu_bd e ((List.take_sublist 50 _).subset he)
  · next hng =>
    refine ⟨⟨hu_nd, ?_, hu_pw⟩, hu_bd⟩
    omega

/-- Running a monotone-in-time sequence of addHistory calls preserves
the history invariant. -/
theorem runHistory_wf (calls : List (Nat × SuratData)) :
    ∀ (h : List HistoryEntry) (lb : Nat), historyWF h →
      (∀ e ∈ h, e.timestamp ≤ lb) → timesMono lb calls →
      historyWF (runHistory calls h) := by
  induction calls with
  | nil => intro h lb hwf _ _; exact hwf
  | cons c rest ih =>
    obtain ⟨t, s⟩ := c
    intro h lb hwf hb ht
    obtain ⟨hlb, ht2⟩ := ht
    have hb2 : ∀ e ∈ h, e.timestamp ≤ t := fun e he => le_trans (hb e he) hlb
    have step := addHistory_step_wf t s h hwf hb2
    exact ih _ t step.1 step.2 ht2

/-- Claim C2 counterexample: from a starting history that already holds
two entries for chapter 1 (such a history is reachable through import),
an addHistory call for chapter 2 leaves both chapter-1 entries in
place, so the result does not have at most one entry per chapter id. -/
theorem addHistory_keeps_duplicates_of_arbitrary_start :
    ((addHistory 6 { nomor := 2, nama := "b", namaLatin := "b" }
        [{ nomor := 1, nama := "a", namaLatin := "a", timestamp := 5 },
         { nomor := 1, nama := "a", namaLatin := "a", timestamp := 5 }]).filter
      (fun e => e.nomor == 1)).length = 2 := rfl

/-- Claim C2 (amended): for every sequence of addHistory calls with
non-decreasing call times, starting from a history that itself has at
most one entry per chapter id, at most 50 entries and non-increasing
timestamps (the empty history in particular), the resulting history
again satisfies all three properties; and recording chapter 10, then
chapter 20, then chapter 10 again from the empty history yields the
2-entry history with chapter 10 at the front. -/
theorem addHistory_sequence_invariants (calls : List (Nat × SuratData))
    (h : List HistoryEntry) (lb : Nat) (hwf : historyWF h)
    (hb : ∀ e ∈ h, e.timestamp ≤ lb) (ht : timesMono lb calls) :
    historyWF (runHistory calls h) ∧
    runHistory
        [(1, { nomor := 10, nama := "n10", namaLatin := "l10" }),
         (2, { nomor := 20, nama := "n20", namaLatin := "l20" }),
         (3, { nomor := 10, nama := "n10", namaLatin := "l10" })] [] =
      [{ nomor := 10, nama := "n10", namaLatin := "l10", timestamp := 3 },
       { nomor := 20, nama := "n20", namaLatin := "l20", timestamp := 2 }] :=
  ⟨runHistory_wf calls h lb hwf hb ht, rfl⟩

/-- Witness for C2 at a concrete two-call sequence from the empty
history. -/
theorem addHistory_sequence_invariants_witness :
    historyWF (runHistory
      [(5, { nomor := 3, nama := "a", namaLatin := "b" }),
       (7, { nomor := 4, nama := "c", namaLatin := "d" })] []) ∧
    runHistory
        [(1, { nomor := 10, nama := "n10", namaLatin := "l10" }),
         (2, { nomor := 20, nama := "n20", namaLatin := "l20" }),
         (3, { nomor := 10, nama := "n10", namaLatin := "l10" })] [] =
      [{ nomor := 10, nama := "n10", namaLatin := "l10", timestamp := 3 },
       { nomor := 20, nama := "n20", namaLatin := "l20", timestamp := 2 }] :=
  addHistory_sequence_invariants
    [(5, { nomor := 3, nama := "a", namaLatin := "b" }),
     (7, { nomor := 4, nama := "c", namaLatin := "d" })] [] 0
    (by decide) (by simp) (by decide)

/-- On valid, available credentials, register creates the account and
auto-logs it in. -/
theorem register_success_eq (now1 : Nat) (freshId username password : String)
    (st : AuthState)
    (hu : ¬ (username = "" ∨ password = ""))
    (hul : ¬ username.length < 3) (hpl : ¬ password.length < 6)
    (hfind : st.users.find? (fun u => jsToLower u.username == jsToLower username) = none) :
    register now1 freshId username password st =
      (.ok (createUserSession now1 (regUser now1 freshId username password)
          { st with users := st.users ++ [regUser now1 freshId username password] }).1,
       (createUserSession now1 (regUser now1 freshId username password)
          { st with users := st.users ++ [regUser now1 freshId username password] }).2) := by
  unfold register regUser
  rw [if_neg hu, if_neg hul, if_neg hpl, hfind]

/-- Claim C4 counterexample: the username " ab" (leading space) is
accepted by register, which stores it trimmed to "ab"; a subsequent
login with the same strings fails to find the account. -/
theorem register_login_trim_mismatch :
    isOkB (register 0 "user_1" " ab" "secret1" emptyAuthState).1 = true ∧
    (login 1 " ab" "secret1" (register 0 "user_1" " ab" "secret1" emptyAuthState).2).1 =
      .error "Username tidak ditemukan" := by
  exact ⟨by decide, by decide⟩

/-- Claim C4 (amended): for every username and password accepted by
register such that the username additionally carries no leading or
trailing whitespace, a subsequent login with the same strings succeeds
and yields the account id register created. -/
theorem register_then_login_same_id (now1 now2 : Nat)
    (freshId username password : String) (st : AuthState)
    (hu : username ≠ "") (hp : password ≠ "")
    (hul : 3 ≤ username.length) (hpl : 6 ≤ password.length)
    (havail : ∀ u ∈ st.users, jsToLower u.username ≠ jsToLower username)
    (htrim : jsTrim username = username) :
    ∃ su st1 su2 st2,
      register now1 freshId username password st = (.ok su, st1) ∧
      login now2 username password st1 = (.ok su2, st2) ∧
      su.id = freshId ∧ su2.id = freshId := by
  have hor : ¬ (username = "" ∨ password = "") := by
    rintro (h | h)
    · exact hu h
    · exact hp h
  have hul' : ¬ username.length < 3 := by omega
  have hpl' : ¬ password.length < 6 := by omega
  have hfind : st.users.find? (fun u => jsToLower u.username == jsToLower username) = none :=
    List.find?_eq_none.mpr (fun u hmem => by simpa using havail u hmem)
  have hreg := register_success_eq now1 freshId username password st hor hul' hpl' hfind
  obtain ⟨su2, st2, hlog, hid2⟩ :
      ∃ su2 st2, login now2 username password
          (createUserSession now1 (regUser now1 freshId username password)
            { st with users := st.users ++ [regUser now1 freshId username password] }).2 =
          (.ok su2, st2) ∧ su2.id = freshId := by
    have hpnu : (jsToLower (regUser now1 freshId username password).username ==
        jsToLower username) = true := by
      show (jsToLower (jsTrim username) == jsToLower username) = true
      rw [htrim]
      exact beq_self_eq_true _
    have hfind2 : ((createUserSession now1 (regUser now1 freshId username password)
          { st with users := st.users ++ [regUser now1 freshId username password] }).2).users.find?
        (fun u => jsToLower u.username == jsToLower username) =
        some (regUser now1 freshId username password) := by
      show (st.users ++ [regUser now1 freshId username password]).find?
        (fun u => jsToLower u.username == jsToLower username) =
        some (regUser now1 freshId username password)
      rw [List.find?_append, hfind]
      simp [List.find?_cons, hpnu]
    have hver : (!verifyPassword password (hashPassword password)) = false := by
      simp [verifyPassword]
    unfold login
    rw [if_neg hor, hfind2]
    simp only [regUser, hver, Bool.not_true]
    exact ⟨_, _, rfl, rfl⟩
  exact ⟨_, _, su2, st2, hreg, hlog, rfl, hid2⟩

/-- Witness for C4 at concrete credentials over the empty user store. -/
theorem register_then_login_same_id_witness :
    ∃ su st1 su2 st2,
      register 0 "user_1" "abc" "secret1" emptyAuthState = (.ok su, st1) ∧
      login 1 "abc" "secret1" st1 = (.ok su2, st2) ∧
      su.id = "user_1" ∧ su2.id = "user_1" :=
  register_then_login_same_id 0 1 "user_1" "abc" "secret1" emptyAuthState
    (by decide) (by decide) (by decide) (by decide) (by simp [emptyAuthState])
    (by decide)

/-- Claim C9: a successful changePassword call leaves the session
record and the current-user record untouched, the session is still
valid at the same clock reading (so getCurrentUser still returns the
user), and the users list changes only at the logged-in account, whose
record differs only in the password checksum. -/
theorem changePassword_frame (now : Nat) (curP newP : String) (st : AuthState)
    (hsucc : (changePassword now curP newP st).1 = .ok ()) :
    (changePassword now curP newP st).2.session = st.session ∧
    (changePassword now curP newP st).2.currentUser = st.currentUser ∧
    (∃ s, st.session = some s ∧ isSessionValid now s = true) ∧
    (getCurrentUser now (changePassword now curP newP st).2).1 = st.currentUser ∧
    (∃ cu u, st.currentUser = some cu ∧
      st.users.find? (fun v => v.id == cu.id) = some u ∧
      (changePassword now curP newP st).2.users =
        st.users.set (st.users.findIdx (fun v => v.id == cu.id))
          { u with password := hashPassword newP }) := by
  cases hss : st.session with
  | none =>
    exfalso
    simp [changePassword, getCurrentUser, hss] at hsucc
  | some s =>
    by_cases hv : isSessionValid now s = true
    case neg =>
      exfalso
      simp [changePassword, getCurrentUser, hss, hv] at hsucc
    case pos =>
      cases hcu : st.currentUser with
      | none =>
        exfalso
        simp [changePassword, getCurrentUser, hss, hv, hcu] at hsucc
      | some cu =>
        by_cases hemp : curP = "" ∨ newP = ""
        case pos =>
          exfalso
          simp [changePassword, getCurrentUser, hss, hv, hcu, hemp] at hsucc
        case neg =>
          by_cases hlen : newP.length < 6
          case pos =>
            exfalso
            simp [changePassword, getCurrentUser, hss, hv, hcu, hemp, hlen] at hsucc
          case neg =>
            cases hfind : st.users.find? (fun v => v.id == cu.id) with
            | none =>
              exfalso
              simp [changePassword, getCurrentUser, hss, hv, hcu, hemp, hlen, hfind] at hsucc
            | some user =>
              by_cases hver : verifyPassword curP user.password = true
              case neg =>
                exfalso
                simp [changePassword, getCurrentUser, hss, hv, hcu, hemp, hlen,
                  hfind, hver] at hsucc
              case pos =>
                have hcp : changePassword now curP newP st =
                    (.ok (), { st with users :=
                      (st.users.set (st.users.findIdx (fun v => v.id == cu.id))
                        ({ user with password := hashPassword newP })) }) := by
                  simp [changePassword, getCurrentUser, hss, hv, hcu, hemp, hlen,
                    hfind, hver]
                rw [hcp]
                refine ⟨hss, hcu, ⟨s, rfl, hv⟩, ?_, ⟨cu, user, rfl, hfind, rfl⟩⟩
                simp [getCurrentUser, hss, hv, hcu]

set_option maxRecDepth 100000 in
/-- Witness for C9 at a concrete logged-in state. -/
theorem changePassword_frame_witness :
    (changePassword 5 "oldpass1" "newpass1"
        { users := [{ id := "id1", username := "alice",
                      password := hashPassword "oldpass1", createdAt := 0,
                      lastLogin := none, isActive := true,
                      profile := { displayName := "alice", preferredQari := "",
                                   fontSize := "medium", theme := "light" } }],
          currentUser := some { id := "id1", username := "alice",
                                displayName := "alice",
                                profile := { displayName := "alice", preferredQari := "",
                                             fontSize := "medium", theme := "light" },
                                loginTime := 0 },
          session := some { userId := "id1", createdAt := 0,
                            expiresAt := 86400000, isValid := true } }).2.session =
      some { userId := "id1", createdAt := 0, expiresAt := 86400000, isValid := true } ∧
    (getCurrentUser 5
        (changePassword 5 "oldpass1" "newpass1"
          { users := [{ id := "id1", username := "alice",
                        password := hashPassword "oldpass1", createdAt := 0,
                        lastLogin := none, isActive := true,
                        profile := { displayName := "alice", preferredQari := "",
                                     fontSize := "medium", theme := "light" } }],
            currentUser := some { id := "id1", username := "alice",
                                  displayName := "alice",
                                  profile := { displayName := "alice", preferredQari := "",
                                               fontSize := "medium", theme := "light" },
                                  loginTime := 0 },
            session := some { userId := "id1", createdAt := 0,
                              expiresAt := 86400000, isValid := true } }).2).1 =
      some { id := "id1", username := "alice", displayName := "alice",
             profile := { displayName := "alice", preferredQari := "",
                          fontSize := "medium", theme := "light" },
             loginTime := 0 } := by
  have h := changePassword_frame 5 "oldpass1" "newpass1"
    { users := [{ id := "id1", username := "alice",
                  password := hashPassword "oldpass1", createdAt := 0,
                  lastLogin := none, isActive := true,
                  profile := { displayName := "alice", preferredQari := "",
                               fontSize := "medium", theme := "light" } }],
      currentUser := some { id := "id1", username := "alice",
                            displayName := "alice",
                            profile := { displayName := "alice", preferredQari := "",
                                         fontSize := "medium", theme := "light" },
                            loginTime := 0 },
      session := some { userId := "id1", createdAt := 0,
                        expiresAt := 86400000, isValid := true } }
    (by decide)
  exact ⟨h.1, h.2.2.2.1⟩

end QuranApp

